import Mathlib

/-!
Shallow embedding of `src/backend/main.py` (concrete compressive strength
prediction API) and proofs of the specification claims.

Modelling conventions:
* Python floats are modelled as real numbers (`ℝ`).
* The three opaque external collaborators (the deserialized KNN model and the
  scaler, each of which may raise when called, and `joblib.load`, which may
  raise while loading) are modelled with `Except String`.
* A JSON response body is modelled by the inductive `Response`; an uncaught
  Python exception escaping a route handler is `Response.exception`.
-/

namespace ConcreteAPI

/-- The request body of `POST /predict` (class `Features`, main.py lines
56-64): eight numeric fields. -/
structure Features where
  cement : ℝ
  slag : ℝ
  flyash : ℝ
  water : ℝ
  superplasticizer : ℝ
  coarseagg : ℝ
  fineagg : ℝ
  age : ℝ

/-- The four precomputed metrics (main.py lines 26-29), held as module-level
state after startup. -/
structure Snapshot where
  mae : ℝ
  rmse : ℝ
  r2 : ℝ
  corr : ℝ

/-- The immutable process-wide state after a successful startup: the two
callable artifacts and the metrics snapshot. `transform` and `modelPredict`
act on a matrix (list of rows) and may fail, modelling a raised exception. -/
structure AppState where
  transform : List (List ℝ) → Except String (List (List ℝ))
  modelPredict : List (List ℝ) → Except String (List ℝ)
  snapshot : Snapshot

/-- A response body produced by a route handler, or an escaped exception. -/
inductive Response where
  | predictedStrength : ℝ → Response
  | errorBody : String → Response
  | metricsBody : ℝ → ℝ → ℝ → ℝ → String → Response
  | message : String → Response
  | exception : String → Response

/-- main.py lines 71-73: the eight fields assembled into one row, in the
fixed source order. -/
def assembleRow (f : Features) : List ℝ :=
  [f.cement, f.slag, f.flyash, f.water, f.superplasticizer,
   f.coarseagg, f.fineagg, f.age]

/-- The `POST /predict` handler (main.py lines 69-82). The optional query
parameter `model` defaults to "KNN". The scaler transform runs before the
selector check; a raised exception propagates. `float(prediction[0])` is an
index into the prediction vector (IndexError when empty) followed by an
identity conversion in the real-number model. -/
def predictRoute (s : AppState) (features : Features) (model : Option String) :
    Response :=
  let model := model.getD "KNN"
  let x := [assembleRow features]
  match s.transform x with
  | .error e => .exception e
  | .ok xScaled =>
    if model = "KNN" then
      match s.modelPredict xScaled with
      | .error e => .exception e
      | .ok prediction =>
        match prediction.head? with
        | some v => .predictedStrength v
        | none => .exception "IndexError"
    else
      .errorBody ("Model " ++ model ++ " not implemented yet.")

/-- The fixed description string returned by `GET /model-metrics` for the
KNN selector (main.py line 95). -/
def knnDescription : String :=
  "KNN predicts the output based on nearest neighbors in the training data."

/-- The `GET /model-metrics` handler (main.py lines 87-98); the optional
query parameter `model` defaults to "KNN". -/
def modelMetrics (s : AppState) (model : Option String) : Response :=
  let model := model.getD "KNN"
  if model = "KNN" then
    .metricsBody s.snapshot.mae s.snapshot.rmse s.snapshot.r2 s.snapshot.corr
      knnDescription
  else
    .errorBody ("Metrics for model " ++ model ++ " not implemented yet.")

/-- The `GET /` handler (main.py lines 103-105). -/
def rootRoute : Response :=
  .message "Welcome to Concrete Strength Prediction API"

/-- A request to one of the three routes. -/
inductive Request where
  | root : Request
  | predictReq : Features → Option String → Request
  | metricsReq : Option String → Request

/-- Dispatch one request to its handler. Handlers only read `s`; they return
no updated state because no route in main.py assigns to any module-level
name. -/
def handle (s : AppState) : Request → Response
  | .root => rootRoute
  | .predictReq f m => predictRoute s f m
  | .metricsReq m => modelMetrics s m

/-- Serve a sequence of requests against the fixed startup state. -/
def serve (s : AppState) (reqs : List Request) : List Response :=
  reqs.map (handle s)

/-! ### Metrics (main.py lines 24-29)

The library calls `mean_absolute_error`, `mean_squared_error`, `r2_score`
(scikit-learn) and `np.corrcoef` (numpy) are external collaborators; they are
embedded below by their documented semantics, over real vectors represented
as lists. -/

/-- Arithmetic mean of a vector (`np.mean`). -/
noncomputable def listMean (l : List ℝ) : ℝ :=
  l.sum / l.length

/-- `sklearn.metrics.mean_absolute_error(y_true, y_pred)`. -/
noncomputable def mean_absolute_error (yTrue yPred : List ℝ) : ℝ :=
  (((yTrue.zip yPred).map fun q => |q.1 - q.2|).sum) / yTrue.length

/-- `sklearn.metrics.mean_squared_error(y_true, y_pred)`. -/
noncomputable def mean_squared_error (yTrue yPred : List ℝ) : ℝ :=
  (((yTrue.zip yPred).map fun q => (q.1 - q.2) ^ 2).sum) / yTrue.length

/-- `sklearn.metrics.r2_score(y_true, y_pred)`, including the library's
documented degenerate-denominator convention: with a constant `y_true` the
score is 1.0 for a perfect fit and 0.0 otherwise. -/
noncomputable def r2_score (yTrue yPred : List ℝ) : ℝ :=
  let num := ((yTrue.zip yPred).map fun q => (q.1 - q.2) ^ 2).sum
  let den := (yTrue.map fun u => (u - listMean yTrue) ^ 2).sum
  if den = 0 then (if num = 0 then 1 else 0) else 1 - num / den

/-- One entry of the matrix `np.cov(a, b)` (default normalization by
length - 1). -/
noncomputable def covEntry (a b : List ℝ) : ℝ :=
  (((a.zip b).map fun q => (q.1 - listMean a) * (q.2 - listMean b)).sum) /
    ((a.length : ℝ) - 1)

/-- `np.corrcoef(a, b)[0, 1]`: the covariance matrix entry normalized by the
two standard deviations. -/
noncomputable def corrcoef01 (a b : List ℝ) : ℝ :=
  covEntry a b / Real.sqrt (covEntry a a * covEntry b b)

/-! Reference definitions taken from the words of spec section 4.2, to be
compared with the embedded library calls above. -/

/-- Modelled from the spec: "MAE = mean of absolute differences between
predicted and actual targets". -/
noncomputable def specMAE (yPred yActual : List ℝ) : ℝ :=
  (((yPred.zip yActual).map fun q => |q.1 - q.2|).sum) / yPred.length

/-- Modelled from the spec: "RMSE = square root of the mean of squared
differences". -/
noncomputable def specRMSE (yPred yActual : List ℝ) : ℝ :=
  Real.sqrt ((((yPred.zip yActual).map fun q => (q.1 - q.2) ^ 2).sum) /
    yPred.length)

/-- Modelled from the spec: "R² = coefficient of determination of predicted
vs. actual", in its standard form 1 - SSres / SStot. -/
noncomputable def specR2 (yPred yActual : List ℝ) : ℝ :=
  1 - (((yActual.zip yPred).map fun q => (q.1 - q.2) ^ 2).sum) /
    ((yActual.map fun u => (u - listMean yActual) ^ 2).sum)

/-- Modelled from the spec: "Correlation = Pearson correlation coefficient
between predicted and actual vectors", in its standard textbook form. -/
noncomputable def specPearson (yPred yActual : List ℝ) : ℝ :=
  (((yPred.zip yActual).map fun q =>
      (q.1 - listMean yPred) * (q.2 - listMean yActual)).sum) /
    (Real.sqrt ((yPred.map fun u => (u - listMean yPred) ^ 2).sum) *
     Real.sqrt ((yActual.map fun u => (u - listMean yActual) ^ 2).sum))

/-! ### Startup (main.py lines 19-29) -/

/-- The four `joblib.load` results, each of which may fail (missing or
corrupt file, deserialization error). The model and scaler deserialize to
callables that may themselves raise. -/
structure RawArtifacts where
  knnModel : Except String (List (List ℝ) → Except String (List ℝ))
  scalerObj : Except String (List (List ℝ) → Except String (List (List ℝ)))
  xTestScaled : Except String (List (List ℝ))
  yTestRaw : Except String (List ℝ)

/-- Metrics precomputation (main.py lines 26-29) given the test targets and
the predictions on the test set. scikit-learn raises on mismatched lengths
and on zero samples, making an empty evaluation dataset fatal. -/
noncomputable def computeMetrics (yTest yPred : List ℝ) :
    Except String Snapshot :=
  if yTest.length = yPred.length ∧ yTest.length ≠ 0 then
    .ok { mae := mean_absolute_error yTest yPred
          rmse := Real.sqrt (mean_squared_error yTest yPred)
          r2 := r2_score yTest yPred
          corr := corrcoef01 yTest yPred }
  else
    .error "metrics precomputation failed"

/-- Startup (main.py lines 19-29): load the four artifacts in source order,
run the model over the scaled test features, and precompute the metrics
snapshot. Any raised exception aborts the module import, so the process
never starts serving. -/
noncomputable def startup (r : RawArtifacts) : Except String AppState :=
  match r.knnModel with
  | .error e => .error e
  | .ok m =>
    match r.scalerObj with
    | .error e => .error e
    | .ok sc =>
      match r.xTestScaled with
      | .error e => .error e
      | .ok xs =>
        match r.yTestRaw with
        | .error e => .error e
        | .ok ys =>
          match m xs with
          | .error e => .error e
          | .ok yPred =>
            match computeMetrics ys yPred with
            | .error e => .error e
            | .ok snap => .ok ⟨sc, m, snap⟩

/-- The whole process: requests are answered only when startup succeeded;
a startup failure propagates and nothing is ever served. -/
noncomputable def runProcess (r : RawArtifacts) (reqs : List Request) :
    Except String (List Response) :=
  match startup r with
  | .error e => .error e
  | .ok s => .ok (serve s reqs)

/-! ### CORS configuration (main.py lines 39-43) -/

/-- Python `str.split(",")`: split on every comma, keeping empty segments
(`"".split(",")` is `[""]`). -/
def splitOnComma : List Char → List (List Char)
  | [] => [[]]
  | c :: rest =>
    match splitOnComma rest with
    | [] => [[c]]
    | g :: gs => if c = ',' then [] :: g :: gs else (c :: g) :: gs

/-- Python `str.strip()`: drop leading and trailing whitespace. -/
def pyStrip (cs : List Char) : List Char :=
  ((cs.dropWhile Char.isWhitespace).reverse.dropWhile Char.isWhitespace).reverse

/-- The default value passed to `os.getenv` for `FRONTEND_URLS`
(main.py lines 39-42). -/
def defaultFrontendUrls : String := "http://localhost:3000,http://127.0.0.1:3000"

/-- main.py lines 39-43: the allowed-origin list, derived once at startup
from the optional environment variable by splitting on commas and stripping
each entry. -/
def originsOf (env : Option String) : List String :=
  (splitOnComma (env.getD defaultFrontendUrls).toList).map
    (fun g => String.mk (pyStrip g))

/-! ### Concrete fixtures used by witnesses and counterexamples -/

/-- A scaler whose transform succeeds and returns its input unchanged. -/
def transformOk : List (List ℝ) → Except String (List (List ℝ)) :=
  fun xs => .ok xs

/-- A scaler whose transform raises. -/
def transformBoom : List (List ℝ) → Except String (List (List ℝ)) :=
  fun _ => .error "transform raised"

/-- A model predicting 0 for every row. -/
def predictZero : List (List ℝ) → Except String (List ℝ) :=
  fun xs => .ok (xs.map fun _ => 0)

/-- The metrics snapshot produced by `predictZero` on the one-point test set
with scaled features `[[0]]` and targets `[0]`. -/
noncomputable def snapZero : Snapshot :=
  { mae := mean_absolute_error [0] [0]
    rmse := Real.sqrt (mean_squared_error [0] [0])
    r2 := r2_score [0] [0]
    corr := corrcoef01 [0] [0] }

/-- A concrete healthy application state. -/
noncomputable def sOk : AppState := ⟨transformOk, predictZero, snapZero⟩

/-- A concrete application state whose scaler raises on every call. -/
noncomputable def sBoom : AppState := ⟨transformBoom, predictZero, snapZero⟩

/-- A concrete all-zero feature vector. -/
def f0 : Features := ⟨0, 0, 0, 0, 0, 0, 0, 0⟩

/-- Concrete raw artifacts that all load and give the one-point test set. -/
def rawOk : RawArtifacts :=
  ⟨.ok predictZero, .ok transformOk, .ok [[0]], .ok [0]⟩

/-- Concrete raw artifacts whose model file fails to deserialize. -/
def rawBadModel : RawArtifacts :=
  ⟨.error "knn_model.pkl missing", .ok transformOk, .ok [[0]], .ok [0]⟩

/-! ### Helper lemmas -/

/-- Swapping the zipped lists leaves the sum of absolute differences
unchanged. -/
theorem zip_sum_abs_comm (a b : List ℝ) :
    ((a.zip b).map fun q => |q.1 - q.2|).sum =
      ((b.zip a).map fun q => |q.1 - q.2|).sum := by
  induction a generalizing b with
  | nil => cases b <;> rfl
  | cons x xs ih =>
    cases b with
    | nil => rfl
    | cons y ys =>
      simp only [List.zip_cons_cons, List.map_cons, List.sum_cons]
      rw [ih ys, abs_sub_comm]

/-- Swapping the zipped lists leaves the sum of squared differences
unchanged. -/
theorem zip_sum_sq_comm (a b : List ℝ) :
    ((a.zip b).map fun q => (q.1 - q.2) ^ 2).sum =
      ((b.zip a).map fun q => (q.1 - q.2) ^ 2).sum := by
  induction a generalizing b with
  | nil => cases b <;> rfl
  | cons x xs ih =>
    cases b with
    | nil => rfl
    | cons y ys =>
      simp only [List.zip_cons_cons, List.map_cons, List.sum_cons]
      rw [ih ys]
      ring_nf

/-- Swapping the zipped lists flips the centered product sums. -/
theorem zip_sum_mul_swap (a b : List ℝ) (x y : ℝ) :
    ((a.zip b).map fun q => (q.1 - x) * (q.2 - y)).sum =
      ((b.zip a).map fun q => (q.1 - y) * (q.2 - x)).sum := by
  induction a generalizing b with
  | nil => cases b <;> rfl
  | cons u us ih =>
    cases b with
    | nil => rfl
    | cons v vs =>
      simp only [List.zip_cons_cons, List.map_cons, List.sum_cons]
      rw [ih vs]
      ring_nf

/-- A centered product sum of a list zipped with itself is a sum of squared
deviations. -/
theorem zip_self_sq (a : List ℝ) (x : ℝ) :
    ((a.zip a).map fun q => (q.1 - x) * (q.2 - x)).sum =
      (a.map fun u => (u - x) ^ 2).sum := by
  induction a with
  | nil => rfl
  | cons u us ih =>
    simp only [List.zip_cons_cons, List.map_cons, List.sum_cons]
    rw [ih]
    ring_nf

/-- A sum of squared deviations is non-negative. -/
theorem sq_sum_nonneg (a : List ℝ) (x : ℝ) :
    0 ≤ (a.map fun u => (u - x) ^ 2).sum := by
  refine List.sum_nonneg ?_
  intro v hv
  obtain ⟨u, -, rfl⟩ := List.mem_map.mp hv
  positivity

/-- The numpy correlation entry `corrcoef01 yTest yPred` equals the textbook
Pearson coefficient of the predicted and actual vectors, for same-length
vectors: the covariance normalizations by length - 1 cancel against the two
standard deviations. -/
theorem corrcoef_eq_pearson (yTest yPred : List ℝ)
    (hlen : yTest.length = yPred.length) :
    corrcoef01 yTest yPred = specPearson yPred yTest := by
  rcases yTest with _ | ⟨u, yt⟩
  · have hb : yPred = [] := List.length_eq_zero.mp (by simpa using hlen.symm)
    subst hb
    norm_num [corrcoef01, covEntry, specPearson, Real.sqrt_zero]
  rcases yt with _ | ⟨u2, yt2⟩
  · obtain ⟨v, rfl⟩ := List.length_eq_one.mp (by simpa using hlen.symm)
    norm_num [corrcoef01, covEntry, specPearson, listMean, Real.sqrt_zero]
  · have h00 := sq_sum_nonneg (u :: u2 :: yt2) (listMean (u :: u2 :: yt2))
    have h11 := sq_sum_nonneg yPred (listMean yPred)
    have hc : (0:ℝ) < ((u :: u2 :: yt2).length : ℝ) - 1 := by
      have hy : (0:ℝ) ≤ (yt2.length : ℝ) := Nat.cast_nonneg _
      simp only [List.length_cons]
      push_cast
      linarith
    unfold corrcoef01 covEntry specPearson
    rw [← hlen]
    rw [zip_self_sq, zip_self_sq]
    rw [zip_sum_mul_swap yPred (u :: u2 :: yt2) (listMean yPred)
      (listMean (u :: u2 :: yt2))]
    rw [div_mul_div_comm]
    rw [Real.sqrt_div (mul_nonneg h00 h11)]
    rw [Real.sqrt_mul_self hc.le]
    rw [div_div_div_comm]
    rw [div_self hc.ne']
    rw [div_one]
    rw [Real.sqrt_mul h00]
    ring

/-- Inversion of a successful startup: every artifact loaded and the
evaluation dataset is non-empty. -/
theorem startup_ok_inv (r : RawArtifacts) (s : AppState)
    (hs : startup r = Except.ok s) :
    (∃ m, r.knnModel = Except.ok m) ∧
    (∃ sc, r.scalerObj = Except.ok sc) ∧
    (∃ xs, r.xTestScaled = Except.ok xs) ∧
    (∃ ys, r.yTestRaw = Except.ok ys ∧ ys ≠ []) := by
  unfold startup at hs
  split at hs
  · cases hs
  next m hm =>
  split at hs
  · cases hs
  next sc hsc =>
  split at hs
  · cases hs
  next xs hxs =>
  split at hs
  · cases hs
  next ys hys =>
  split at hs
  · cases hs
  next yPred hyp =>
  split at hs
  · cases hs
  next snap hsnap =>
  refine ⟨⟨m, hm⟩, ⟨sc, hsc⟩, ⟨xs, hxs⟩, ⟨ys, hys, ?_⟩⟩
  intro hnil
  subst hnil
  unfold computeMetrics at hsnap
  rw [if_neg (by simp)] at hsnap
  cases hsnap

/-! ### Claims -/

/-- C7: on both the prediction route and the metrics route the
model-selector parameter is optional with default "KNN": omitting the
selector gives exactly the same response as passing "KNN" explicitly. -/
theorem c7_default_selector_knn (s : AppState) (f : Features) :
    predictRoute s f none = predictRoute s f (some "KNN") ∧
    modelMetrics s none = modelMetrics s (some "KNN") :=
  ⟨rfl, rfl⟩

/-- C8: the root route takes no inputs and, on every call regardless of
repetition, returns exactly the fixed welcome body. -/
theorem c8_root_fixed_message (s : AppState) (k : ℕ) :
    serve s (List.replicate k Request.root) =
      List.replicate k
        (Response.message "Welcome to Concrete Strength Prediction API") := by
  simp [serve, handle, rootRoute]

/-- C2: for every feature vector and selector "KNN", the prediction route
assembles the eight fields into one row in the fixed source order
(`assembleRow`), applies the scaler transform to that row, applies the model
predict to the scaled row, and returns the single scalar output as the
predicted strength. -/
theorem c2_predict_pipeline (s : AppState) (f : Features)
    (xs : List (List ℝ)) (v : ℝ)
    (htr : s.transform [assembleRow f] = Except.ok xs)
    (hpr : s.modelPredict xs = Except.ok [v]) :
    predictRoute s f (some "KNN") = Response.predictedStrength v := by
  simp [predictRoute, htr, hpr]

/-- Witness for C2 at a concrete state and the all-zero feature vector. -/
theorem c2_predict_pipeline_witness :
    predictRoute sOk f0 (some "KNN") = Response.predictedStrength 0 :=
  c2_predict_pipeline sOk f0 [assembleRow f0] 0 rfl rfl

/-- C6: the metrics route with the default (or "KNN") selector returns the
four snapshot numbers (real numbers in this model, hence finite) plus the
fixed non-empty description string, identical on every call. -/
theorem c6_metrics_success_shape (s : AppState) :
    modelMetrics s none =
      Response.metricsBody s.snapshot.mae s.snapshot.rmse s.snapshot.r2
        s.snapshot.corr knnDescription ∧
    modelMetrics s (some "KNN") =
      Response.metricsBody s.snapshot.mae s.snapshot.rmse s.snapshot.r2
        s.snapshot.corr knnDescription ∧
    knnDescription ≠ "" :=
  ⟨rfl, rfl, by decide⟩

/-- C1 counterexample: at selector "RF" the prediction route does return the
error body with message "Model RF not implemented yet.", but the metrics
route does not return that body (its message reads "Metrics for model RF not
implemented yet."), so the two routes do not return an identical literal
body. -/
theorem c1_counterexample :
    predictRoute sOk f0 (some "RF") =
      Response.errorBody "Model RF not implemented yet." ∧
    modelMetrics sOk (some "RF") ≠
      Response.errorBody "Model RF not implemented yet." := by
  refine ⟨rfl, fun h => ?_⟩
  have h2 : Response.errorBody "Metrics for model RF not implemented yet." =
      Response.errorBody "Model RF not implemented yet." := h
  exact absurd (Response.errorBody.inj h2) (by decide)

/-- C1 amended: for every selector other than "KNN" both routes answer with
a normal (non-error-status) error body, but the two literal bodies differ:
the prediction route (once the transform has succeeded) says
"Model X not implemented yet." while the metrics route says
"Metrics for model X not implemented yet.". -/
theorem c1_not_implemented_bodies (s : AppState) (f : Features)
    (xs : List (List ℝ)) (sel : String) (hsel : sel ≠ "KNN")
    (htr : s.transform [assembleRow f] = Except.ok xs) :
    predictRoute s f (some sel) =
      Response.errorBody ("Model " ++ sel ++ " not implemented yet.") ∧
    modelMetrics s (some sel) =
      Response.errorBody ("Metrics for model " ++ sel ++
        " not implemented yet.") := by
  constructor
  · simp [predictRoute, htr, hsel]
  · simp [modelMetrics, hsel]

/-- Witness for the amended C1 at selector "RF". -/
theorem c1_not_implemented_bodies_witness :
    predictRoute sOk f0 (some "RF") =
      Response.errorBody ("Model " ++ "RF" ++ " not implemented yet.") ∧
    modelMetrics sOk (some "RF") =
      Response.errorBody ("Metrics for model " ++ "RF" ++
        " not implemented yet.") :=
  c1_not_implemented_bodies sOk f0 [assembleRow f0] "RF" (by decide) rfl

/-- C10: the scaler transform runs on the assembled row before the selector
check. If the transform raises, the exception escapes for every selector and
no not-implemented body is produced; the not-implemented body is returned
exactly when the transform succeeds and the selector is not "KNN". -/
theorem c10_transform_before_selector (s : AppState) (f : Features)
    (sel : Option String) :
    (∀ e, s.transform [assembleRow f] = Except.error e →
      predictRoute s f sel = Response.exception e) ∧
    (∀ xs, s.transform [assembleRow f] = Except.ok xs →
      sel.getD "KNN" ≠ "KNN" →
      predictRoute s f sel =
        Response.errorBody ("Model " ++ sel.getD "KNN" ++
          " not implemented yet.")) := by
  constructor
  · intro e he
    simp [predictRoute, he]
  · intro xs hxs hsel
    simp [predictRoute, hxs, hsel]

/-- Witness for C10: a raising scaler yields an escaped exception even at
selector "RF"; a succeeding scaler with selector "RF" yields the
not-implemented body. -/
theorem c10_transform_before_selector_witness :
    predictRoute sBoom f0 (some "RF") = Response.exception "transform raised" ∧
    predictRoute sOk f0 (some "RF") =
      Response.errorBody ("Model " ++ "RF" ++ " not implemented yet.") :=
  ⟨(c10_transform_before_selector sBoom f0 (some "RF")).1 "transform raised"
      rfl,
   (c10_transform_before_selector sOk f0 (some "RF")).2 [assembleRow f0] rfl
      (by decide)⟩

/-- C5: a failed artifact load or failed metrics precomputation is fatal.
Part one: a startup error propagates and the process serves nothing.
Part two: if any request sequence is served, then all four artifacts loaded,
the evaluation dataset is non-empty, and the served responses come from the
fully initialized state — so no startup failure is deferred to request
time. -/
theorem c5_startup_failures_fatal (r : RawArtifacts) (reqs : List Request) :
    (∀ e, startup r = Except.error e →
      runProcess r reqs = Except.error e) ∧
    (∀ rs, runProcess r reqs = Except.ok rs →
      (∃ m, r.knnModel = Except.ok m) ∧
      (∃ sc, r.scalerObj = Except.ok sc) ∧
      (∃ xs, r.xTestScaled = Except.ok xs) ∧
      (∃ ys, r.yTestRaw = Except.ok ys ∧ ys ≠ []) ∧
      (∃ s, startup r = Except.ok s ∧ rs = serve s reqs)) := by
  constructor
  · intro e he
    unfold runProcess
    rw [he]
  · intro rs hrun
    unfold runProcess at hrun
    rcases hs : startup r with e | s <;> rw [hs] at hrun
    · cases hrun
    injection hrun with hrs
    obtain ⟨hm, hsc, hxs, hys⟩ := startup_ok_inv r s hs
    exact ⟨hm, hsc, hxs, hys, ⟨s, rfl, hrs.symm⟩⟩

/-- Witness for C5: a missing model file propagates to a startup error with
nothing served, and the healthy artifacts satisfy all the load conditions. -/
theorem c5_startup_failures_fatal_witness :
    runProcess rawBadModel [] = Except.error "knn_model.pkl missing" ∧
    ((∃ m, rawOk.knnModel = Except.ok m) ∧
     (∃ sc, rawOk.scalerObj = Except.ok sc) ∧
     (∃ xs, rawOk.xTestScaled = Except.ok xs) ∧
     (∃ ys, rawOk.yTestRaw = Except.ok ys ∧ ys ≠ []) ∧
     (∃ s, startup rawOk = Except.ok s ∧
       ([] : List Response) = serve s ([] : List Request))) :=
  ⟨(c5_startup_failures_fatal rawBadModel []).1 "knn_model.pkl missing" rfl,
   (c5_startup_failures_fatal rawOk []).2 [] rfl⟩

/-- Dropping a satisfied prefix twice is the same as dropping it once. -/
theorem dropWhile_self (p : Char → Bool) (l : List Char) :
    (l.dropWhile p).dropWhile p = l.dropWhile p := by
  induction l with
  | nil => rfl
  | cons a l ih =>
    by_cases h : p a = true
    · simp [List.dropWhile_cons, h, ih]
    · simp [List.dropWhile_cons, h]

/-- The head surviving `dropWhile` fails the predicate. -/
theorem dropWhile_head_false (p : Char → Bool) (l : List Char) (a : Char)
    (t : List Char) (h : l.dropWhile p = a :: t) : p a = false := by
  induction l with
  | nil => cases h
  | cons x xs ih =>
    rw [List.dropWhile_cons] at h
    by_cases hx : p x = true
    · rw [if_pos hx] at h
      exact ih h
    · rw [if_neg hx] at h
      injection h with h1 _
      subst h1
      simpa using hx

/-- A prefix of a `dropWhile` result is unchanged by `dropWhile`. -/
theorem prefix_dropWhile_self (cs u : List Char)
    (h : u <+: cs.dropWhile Char.isWhitespace) :
    u.dropWhile Char.isWhitespace = u := by
  cases hu : u with
  | nil => rfl
  | cons a t =>
    obtain ⟨r, hr⟩ := h
    rw [hu] at hr
    have ha : Char.isWhitespace a = false :=
      dropWhile_head_false _ cs a (t ++ r) (by rw [← hr]; rfl)
    rw [List.dropWhile_cons, if_neg (by simp [ha])]

/-- A stripped string is a prefix of its leading-whitespace-free form. -/
theorem pyStrip_prefix_drop (cs : List Char) :
    pyStrip cs <+: cs.dropWhile Char.isWhitespace := by
  have h := List.dropWhile_suffix
    (l := (cs.dropWhile Char.isWhitespace).reverse) Char.isWhitespace
  have h2 := List.reverse_prefix.mpr h
  rw [List.reverse_reverse] at h2
  exact h2

/-- Stripping is idempotent: a stripped entry has no leading or trailing
whitespace left. -/
theorem pyStrip_idem (cs : List Char) : pyStrip (pyStrip cs) = pyStrip cs := by
  have h1 : (pyStrip cs).dropWhile Char.isWhitespace = pyStrip cs :=
    prefix_dropWhile_self cs (pyStrip cs) (pyStrip_prefix_drop cs)
  show (((pyStrip cs).dropWhile Char.isWhitespace).reverse.dropWhile
      Char.isWhitespace).reverse = pyStrip cs
  rw [h1]
  have h2 : (pyStrip cs).reverse.dropWhile Char.isWhitespace =
      (pyStrip cs).reverse := by
    have h3 : (pyStrip cs).reverse =
        (cs.dropWhile Char.isWhitespace).reverse.dropWhile Char.isWhitespace :=
      List.reverse_reverse _
    rw [h3]
    exact dropWhile_self _ _
  rw [h2, List.reverse_reverse]

/-- C9: the allowed cross-origin list comes from one environment setting by
splitting its value on commas and stripping each entry; with the setting
absent it is exactly the two localhost origins. Each produced entry is fully
stripped (stripping it again changes nothing). -/
theorem c9_cors_origins (env : Option String) :
    originsOf none = ["http://localhost:3000", "http://127.0.0.1:3000"] ∧
    originsOf env =
      (splitOnComma (env.getD defaultFrontendUrls).toList).map
        (fun g => String.mk (pyStrip g)) ∧
    ∀ o ∈ originsOf env, pyStrip o.toList = o.toList := by
  refine ⟨rfl, rfl, ?_⟩
  intro o ho
  obtain ⟨g, _, rfl⟩ := List.mem_map.mp ho
  show pyStrip (pyStrip g) = pyStrip g
  exact pyStrip_idem g

/-- Witness for C9 at the absent environment setting and its first default
origin. -/
theorem c9_cors_origins_witness :
    originsOf none = ["http://localhost:3000", "http://127.0.0.1:3000"] ∧
    pyStrip ("http://localhost:3000" : String).toList =
      ("http://localhost:3000" : String).toList :=
  ⟨(c9_cors_origins none).1,
   (c9_cors_origins none).2.2 "http://localhost:3000" (by decide)⟩

/-- C4: route handlers are pure readers of the immutable startup state (they
take the state and return only a response, with no state update — no route
in main.py assigns any module-level name), so in every request sequence
every call to the metrics route with selector "KNN" answers with exactly the
four snapshot values computed at startup. -/
theorem c4_metrics_snapshot_immutable (r : RawArtifacts) (s : AppState)
    (_hs : startup r = Except.ok s) (reqs : List Request) (i : ℕ)
    (hreq : reqs[i]? = some (Request.metricsReq (some "KNN"))) :
    (serve s reqs)[i]? =
      some (Response.metricsBody s.snapshot.mae s.snapshot.rmse s.snapshot.r2
        s.snapshot.corr knnDescription) := by
  simp [serve, List.getElem?_map, hreq, handle, modelMetrics]

/-- Witness for C4 at the healthy artifacts and a one-request sequence. -/
theorem c4_metrics_snapshot_immutable_witness :
    (serve sOk [Request.metricsReq (some "KNN")])[0]? =
      some (Response.metricsBody sOk.snapshot.mae sOk.snapshot.rmse
        sOk.snapshot.r2 sOk.snapshot.corr knnDescription) :=
  c4_metrics_snapshot_immutable rawOk sOk rfl
    [Request.metricsReq (some "KNN")] 0 rfl

/-- C3: the four startup metrics equal their reference definitions from the
spec over the evaluation dataset (the actual targets are assumed
non-constant, since the coefficient of determination is otherwise undefined
and scikit-learn substitutes a convention): MAE is the mean absolute
difference of predicted vs. actual, RMSE the root of the mean squared
difference, R² the coefficient of determination, and the correlation the
Pearson coefficient of the predicted and actual vectors. -/
theorem c3_startup_metrics_match_spec (yTest yPred : List ℝ)
    (snap : Snapshot) (hsnap : computeMetrics yTest yPred = Except.ok snap)
    (hden : (yTest.map fun u => (u - listMean yTest) ^ 2).sum ≠ 0) :
    snap.mae = specMAE yPred yTest ∧
    snap.rmse = specRMSE yPred yTest ∧
    snap.r2 = specR2 yPred yTest ∧
    snap.corr = specPearson yPred yTest := by
  unfold computeMetrics at hsnap
  by_cases hc : yTest.length = yPred.length ∧ yTest.length ≠ 0
  · rw [if_pos hc] at hsnap
    obtain ⟨hlen, -⟩ := hc
    injection hsnap with hsnap
    subst hsnap
    refine ⟨?_, ?_, ?_, ?_⟩
    · show mean_absolute_error yTest yPred = specMAE yPred yTest
      unfold mean_absolute_error specMAE
      rw [zip_sum_abs_comm, hlen]
    · show Real.sqrt (mean_squared_error yTest yPred) = specRMSE yPred yTest
      unfold mean_squared_error specRMSE
      rw [zip_sum_sq_comm, hlen]
    · show r2_score yTest yPred = specR2 yPred yTest
      unfold r2_score specR2
      rw [if_neg hden]
    · show corrcoef01 yTest yPred = specPearson yPred yTest
      exact corrcoef_eq_pearson yTest yPred hlen
  · rw [if_neg hc] at hsnap
    cases hsnap

/-- Witness for C3 on the two-point evaluation set with actual targets
`[0, 2]` and predictions `[1, 1]`. -/
theorem c3_startup_metrics_match_spec_witness :
    mean_absolute_error [0, 2] [1, 1] = specMAE [1, 1] [0, 2] ∧
    Real.sqrt (mean_squared_error [0, 2] [1, 1]) = specRMSE [1, 1] [0, 2] ∧
    r2_score [0, 2] [1, 1] = specR2 [1, 1] [0, 2] ∧
    corrcoef01 [0, 2] [1, 1] = specPearson [1, 1] [0, 2] :=
  c3_startup_metrics_match_spec [0, 2] [1, 1]
    ⟨mean_absolute_error [0, 2] [1, 1],
     Real.sqrt (mean_squared_error [0, 2] [1, 1]),
     r2_score [0, 2] [1, 1], corrcoef01 [0, 2] [1, 1]⟩ rfl
    (by norm_num [listMean])

end ConcreteAPI
